import Mathlib

/-!
Verification of the nomotic-ci policy risk-analysis engine.

This file gives a shallow embedding of the three analyzers of the
`nomotic_ci` package — the semantic validator (`config_validator.py`),
the drift classifier (`drift_checker.py`) and the compound-authority
analyzer (`compound_authority.py`) — over the shared policy data model
of `config_loader.py`, and proves the spec's testable properties
about them.

Modelling conventions:
- Python floats become `ℚ` (all the analyzers do with them is compare
  and add exact decimal constants).
- Python sets and dicts become lists; the operations used by the code
  (membership, intersection, difference, subset, keyed lookup) are
  membership-based, and `List.dedup` is inserted exactly where the code
  converts a list to a set and the distinct-element count matters.
  Python dicts cannot hold duplicate keys, so lemmas that depend on key
  uniqueness take a `Nodup` hypothesis.
- The external verdict evaluator (the `nomotic` library runtime) and
  the external `WorkflowGovernor` are injected as function parameters;
  evaluator calls that can raise are modelled with `Except`.
- The `git show` subprocess of the drift checker is modelled by an
  explicit outcome type covering completion, timeout and a missing
  executable.
-/

namespace NomoticCI

/-- Verdicts returned by the external governance runtime. -/
inductive Verdict where
  | ALLOW
  | DENY
  | MODIFY
  | ESCALATE
  | SUSPEND
deriving DecidableEq, Repr

/-- Result of one call to the external verdict evaluator:
a verdict plus a unified confidence score. -/
structure VerdictResult where
  verdict : Verdict
  ucs : ℚ
deriving DecidableEq, Repr

/-- `AgentConfig` from `config_loader.py`: one governed agent. -/
structure AgentConfig where
  agent_id : String
  scope : List String
  targets : List String
  boundaries : List String
  initial_trust : ℚ
  min_trust : ℚ
  owner : String
  reason : String
deriving DecidableEq, Repr

/-- `GovernanceConfig` from `config_loader.py`.  The `raw` YAML dict and
`source_path` carried by the Python dataclass are not consulted by any
analyzer and are omitted. -/
structure GovernanceConfig where
  version : String
  agents : List AgentConfig
  dimension_weights : List (String × ℚ)
  veto_dimensions : List String
  allow_threshold : ℚ
  deny_threshold : ℚ
  trust_settings : List (String × ℚ)
  compliance_frameworks : List String
deriving DecidableEq, Repr

/-! ## Set and map helpers

The Python code operates on `set[str]` and `dict[str, float]`.  The
helpers below implement exactly the operations it uses, on lists. -/

/-- Python `xs.issubset(ys)`. -/
def subsetB (xs ys : List String) : Bool :=
  xs.all (fun x => ys.contains x)

/-- Python `xs & ys` (set intersection, keeping the iteration order of
the left operand). -/
def interB (xs ys : List String) : List String :=
  xs.filter (fun x => ys.contains x)

/-- Python `xs - ys` (set difference, keeping the iteration order of
the left operand). -/
def diffB (xs ys : List String) : List String :=
  xs.filter (fun x => !(ys.contains x))

/-- Python `d.get(key, default)` for a string-keyed float dict.  Python
dicts have unique keys, so the first match is the only match. -/
def lookupD (m : List (String × ℚ)) (key : String) (default : ℚ) : ℚ :=
  match m.find? (fun p => p.1 = key) with
  | some p => p.2
  | none => default

/-- All unordered pairs of a list, in the order produced by
`itertools.combinations(l, 2)` (equivalently the nested
`for i, a in enumerate(l): for b in l[i+1:]` loops of the validator). -/
def pairs {α : Type} : List α → List (α × α)
  | [] => []
  | x :: xs => xs.map (fun y => (x, y)) ++ pairs xs

/-- Code-point lexicographic order on character lists (the order Python
string comparison uses). -/
def charListLe : List Char → List Char → Bool
  | [], _ => true
  | _ :: _, [] => false
  | x :: xs, y :: ys =>
      if x.toNat < y.toNat then true
      else if y.toNat < x.toNat then false
      else charListLe xs ys

/-- Code-point lexicographic order on strings. -/
def strLe (a b : String) : Bool := charListLe a.data b.data

/-- Insert a string into a sorted list (ascending). -/
def insertSorted (x : String) : List String → List String
  | [] => [x]
  | y :: ys => if strLe x y then x :: y :: ys else y :: insertSorted x ys

/-- Python `sorted` on a list of strings (insertion sort). -/
def sortStr : List String → List String
  | [] => []
  | x :: xs => insertSorted x (sortStr xs)

theorem insertSorted_length (x : String) (l : List String) :
    (insertSorted x l).length = l.length + 1 := by
  induction l with
  | nil => rfl
  | cons y ys ih =>
      simp only [insertSorted]
      split
      · simp
      · simp [ih]

theorem sortStr_length (l : List String) : (sortStr l).length = l.length := by
  induction l with
  | nil => rfl
  | cons x xs ih => simp [sortStr, insertSorted_length, ih]

theorem diffB_eq_nil_of_subset {l m : List String} (h : ∀ x ∈ l, x ∈ m) :
    diffB l m = [] := by
  apply List.filter_eq_nil_iff.mpr
  intro a ha
  simp [List.elem_iff, h a ha]

theorem diffB_self (l : List String) : diffB l l = [] :=
  diffB_eq_nil_of_subset (fun _ hx => hx)

/-! ## Semantic validator (`config_validator.py`) -/

/-- A single validation finding (`ValidationIssue`). -/
structure ValidationIssue where
  severity : String
  check_name : String
  message : String
  details : String
  location : String
  remediation : String
deriving DecidableEq, Repr

/-- Aggregated validation results (`ValidationReport`). -/
structure ValidationReport where
  issues : List ValidationIssue
  status : String
  critical_count : Nat
  warning_count : Nat
  info_count : Nat
  checks_run : Nat
deriving DecidableEq, Repr

/-- `CRITICAL_DIMENSIONS` constant. -/
def CRITICAL_DIMENSIONS : List String :=
  ["scope_compliance", "authority_verification"]

/-- `COMPLIANCE_DIMENSION_HINTS` constant. -/
def COMPLIANCE_DIMENSION_HINTS : List (String × List (String × ℚ)) :=
  [ ("HIPAA",
      [("isolation_integrity", mkRat 3 2), ("stakeholder_impact", mkRat 3 2), ("transparency", 1)]),
    ("SOC2",
      [("scope_compliance", mkRat 3 2), ("incident_detection", mkRat 3 2), ("transparency", 1)]),
    ("PCI-DSS",
      [("resource_boundaries", mkRat 3 2), ("isolation_integrity", mkRat 3 2), ("scope_compliance", mkRat 3 2)]),
    ("ISO27001",
      [("scope_compliance", mkRat 3 2), ("authority_verification", mkRat 3 2), ("incident_detection", mkRat 3 2)]) ]

/-- `_check_threshold_inversion`: critical when
`allow_threshold <= deny_threshold`. -/
def check_threshold_inversion (config : GovernanceConfig) : List ValidationIssue :=
  if config.allow_threshold ≤ config.deny_threshold then
    [ { severity := "critical",
        check_name := "threshold_inversion",
        message := "Threshold inversion: allow_threshold <= deny_threshold",
        details := "allow_threshold must be greater than deny_threshold. This creates a paradox where actions can be simultaneously allowed and denied.",
        location := "thresholds",
        remediation := "Set allow_threshold > deny_threshold. Example: allow: 0.7, deny: 0.3" } ]
  else []

/-- `_check_veto_weight_contradiction`: a veto dimension whose weight
(defaulting to 0.0 when absent) is exactly 0.0. -/
def check_veto_weight_contradiction (config : GovernanceConfig) : List ValidationIssue :=
  config.veto_dimensions.filterMap (fun dim =>
    if lookupD config.dimension_weights dim 0 = 0 then
      some { severity := "warning",
             check_name := "veto_weight_contradiction",
             message := s!"Dimension {dim} has veto authority but weight 0.0",
             details := s!"Dimension {dim} can halt actions via veto but contributes nothing to the UCS score.",
             location := s!"dimensions.weights.{dim}",
             remediation := s!"Set a non-zero weight for {dim} or remove it from the veto list." }
    else none)

/-- `_check_missing_critical_vetoes`: weight > 1.5 with no veto
authority; warning for the two critical dimensions, info otherwise. -/
def check_missing_critical_vetoes (config : GovernanceConfig) : List ValidationIssue :=
  config.dimension_weights.filterMap (fun p =>
    if mkRat 3 2 < p.2 ∧ config.veto_dimensions.contains p.1 = false then
      some { severity := if CRITICAL_DIMENSIONS.contains p.1 then "warning" else "info",
             check_name := "missing_critical_veto",
             message := s!"High-weight dimension {p.1} is not in the veto list",
             details := s!"Dimension {p.1} has a high weight but no veto authority.",
             location := "dimensions.vetoes",
             remediation := s!"Consider adding {p.1} to dimensions.vetoes." }
    else none)

/-- The fixed write-like action set of `_check_overlapping_scopes`. -/
def write_actions : List String :=
  ["write", "update", "delete", "transfer", "execute", "approve"]

/-- `_check_overlapping_scopes`: two distinct agents that both hold a
write-like action and share a target. -/
def check_overlapping_scopes (config : GovernanceConfig) : List ValidationIssue :=
  (pairs config.agents).filterMap (fun p =>
    let a_writes := interB p.1.scope write_actions
    let b_writes := interB p.2.scope write_actions
    if a_writes.isEmpty || b_writes.isEmpty then none
    else
      let shared := interB p.1.targets p.2.targets
      if shared.isEmpty then none
      else
        some { severity := "info",
               check_name := "overlapping_scopes",
               message := "Two agents have write access to shared targets",
               details := "Agents share write-capable scopes on common targets.",
               location := s!"agents.{p.1.agent_id}.scope / agents.{p.2.agent_id}.scope",
               remediation := "Consider narrowing scopes to avoid conflicting writes." })

/-- `_check_overprivileged_agents`: more than 5 distinct action types,
or more than 10 targets (each emits its own issue). -/
def check_overprivileged_agents (config : GovernanceConfig) : List ValidationIssue :=
  config.agents.flatMap (fun agent =>
    (if 5 < agent.scope.dedup.length then
      [ { severity := "warning",
          check_name := "overprivileged_agent",
          message := s!"Agent {agent.agent_id} has a broad action scope",
          details := "Many action types granted.",
          location := s!"agents.{agent.agent_id}.scope.actions",
          remediation := "Consider splitting into multiple agents with narrower scopes." } ]
    else []) ++
    (if 10 < agent.targets.length then
      [ { severity := "warning",
          check_name := "overprivileged_agent",
          message := s!"Agent {agent.agent_id} has access to many targets",
          details := "Many targets granted.",
          location := s!"agents.{agent.agent_id}.scope.targets",
          remediation := "Consider restricting the target set for this agent." } ]
    else []))

/-- `_check_trust_floor_above_minimum`: the global trust floor
(default 0.05) exceeds an agent's minimum-for-action trust. -/
def check_trust_floor_above_minimum (config : GovernanceConfig) : List ValidationIssue :=
  let floor := lookupD config.trust_settings "floor" (mkRat 1 20)
  config.agents.filterMap (fun agent =>
    if agent.min_trust < floor then
      some { severity := "warning",
             check_name := "trust_floor_above_minimum",
             message := s!"Trust floor is above agent {agent.agent_id} minimum_for_action",
             details := "Trust degradation has no practical effect for this agent.",
             location := s!"trust.floor / agents.{agent.agent_id}.trust.minimum_for_action",
             remediation := "Either lower trust.floor or raise the agent minimum_for_action." }
    else none)

/-- `_check_compliance_dimensions`: declared frameworks whose
recommended dimension weights are not met. -/
def check_compliance_dimensions (config : GovernanceConfig) : List ValidationIssue :=
  config.compliance_frameworks.flatMap (fun framework =>
    match COMPLIANCE_DIMENSION_HINTS.find? (fun h => h.1 = framework) with
    | none => []
    | some hints =>
        hints.2.filterMap (fun p =>
          if lookupD config.dimension_weights p.1 0 < p.2 then
            some { severity := "info",
                   check_name := "compliance_dimension_alignment",
                   message := s!"{framework} compliance: dimension {p.1} weight is below recommended minimum",
                   details := s!"For {framework} compliance the dimension should have a higher weight.",
                   location := s!"dimensions.weights.{p.1}",
                   remediation := s!"Consider increasing the weight of {p.1}." }
          else none))

/-- Issue emitted when the simulated in-scope action is denied. -/
def mk_in_scope_denied_issue (agent : AgentConfig) (v : VerdictResult) : ValidationIssue :=
  { severity := "warning",
    check_name := "simulation_in_scope_denied",
    message := s!"In-scope action for agent {agent.agent_id} was denied",
    details := s!"Expected ALLOW for an in-scope action, got UCS {v.ucs}.",
    location := s!"agents.{agent.agent_id}",
    remediation := "Review dimension weights and thresholds - the config may be too strict." }

/-- Issue emitted when the simulated out-of-scope action is allowed. -/
def mk_unauthorized_allowed_issue (agent : AgentConfig) (v : VerdictResult) : ValidationIssue :=
  { severity := "critical",
    check_name := "simulation_unauthorized_allowed",
    message := s!"Out-of-scope action was ALLOWED for agent {agent.agent_id}",
    details := s!"Action delete on unauthorized_system should have been denied, got UCS {v.ucs}.",
    location := s!"agents.{agent.agent_id}.scope",
    remediation := "Ensure scope_compliance and isolation_integrity dimensions have veto authority and non-zero weights." }

/-- `_check_simulation`: probes the external governance runtime with the
first agent.  The runtime (construction plus the two `evaluate` calls)
is abstracted as `evalFn agent_id action_type target trust`; a raised
exception anywhere in the probe is an `Except.error`, which `validate`
converts into an internal_error issue. -/
def check_simulation
    (evalFn : String → String → String → ℚ → Except String VerdictResult)
    (config : GovernanceConfig) : Except String (List ValidationIssue) :=
  match config.agents with
  | [] => Except.ok []
  | agent :: _ =>
      let out_of_scope := fun (part1 : List ValidationIssue) =>
        match evalFn agent.agent_id "delete" "unauthorized_system" agent.initial_trust with
        | Except.error e => Except.error e
        | Except.ok v =>
            Except.ok (part1 ++
              (if v.verdict = Verdict.ALLOW then [mk_unauthorized_allowed_issue agent v] else []))
      if agent.targets.isEmpty || agent.scope.isEmpty then out_of_scope []
      else
        match evalFn agent.agent_id (agent.scope.headD "") (agent.targets.headD "") agent.initial_trust with
        | Except.error e => Except.error e
        | Except.ok v =>
            out_of_scope (if v.verdict = Verdict.DENY then [mk_in_scope_denied_issue agent v] else [])

/-- The warning issue `validate` appends when a check raises. -/
def internal_error_issue (e : String) : ValidationIssue :=
  { severity := "warning",
    check_name := "internal_error",
    message := s!"Check failed with error: {e}",
    details := e,
    location := "internal",
    remediation := "This may indicate an issue with the nomotic library version." }

/-- One loop iteration of `validate` over a single issue: append it and
bump the counter matching its severity. -/
def apply_issue (r : ValidationReport) (i : ValidationIssue) : ValidationReport :=
  if i.severity = "critical" then
    { r with issues := r.issues ++ [i], critical_count := r.critical_count + 1 }
  else if i.severity = "warning" then
    { r with issues := r.issues ++ [i], warning_count := r.warning_count + 1 }
  else
    { r with issues := r.issues ++ [i], info_count := r.info_count + 1 }

/-- One loop iteration of `validate` over a check outcome: bump
`checks_run`, then either fold the returned issues in, or (on an
exception) append a single internal_error warning. -/
def apply_outcome (r : ValidationReport)
    (o : Except String (List ValidationIssue)) : ValidationReport :=
  match o with
  | Except.ok issues => issues.foldl apply_issue { r with checks_run := r.checks_run + 1 }
  | Except.error e =>
      { r with checks_run := r.checks_run + 1,
               issues := r.issues ++ [internal_error_issue e],
               warning_count := r.warning_count + 1 }

/-- The freshly constructed `ValidationReport()`. -/
def empty_report : ValidationReport :=
  { issues := [], status := "pass", critical_count := 0, warning_count := 0,
    info_count := 0, checks_run := 0 }

/-- Final status assignment of `validate`. -/
def set_status (r : ValidationReport) : ValidationReport :=
  { r with status :=
      if 0 < r.critical_count then "fail"
      else if 0 < r.warning_count then "warn"
      else "pass" }

/-- The check loop of `validate`, over the outcome of each check. -/
def run_checks (outcomes : List (Except String (List ValidationIssue))) : ValidationReport :=
  set_status (outcomes.foldl apply_outcome empty_report)

/-- `validate`: run the fixed battery of checks.  The seven pure checks
cannot raise; the simulation probe may, through the injected runtime. -/
def validate (evalFn : String → String → String → ℚ → Except String VerdictResult)
    (config : GovernanceConfig) : ValidationReport :=
  run_checks
    [ Except.ok (check_threshold_inversion config),
      Except.ok (check_veto_weight_contradiction config),
      Except.ok (check_missing_critical_vetoes config),
      Except.ok (check_overlapping_scopes config),
      Except.ok (check_overprivileged_agents config),
      Except.ok (check_trust_floor_above_minimum config),
      Except.ok (check_compliance_dimensions config),
      check_simulation evalFn config ]

/-- The issues one check outcome contributes to the report. -/
def outcome_issues (o : Except String (List ValidationIssue)) : List ValidationIssue :=
  match o with
  | Except.ok issues => issues
  | Except.error e => [internal_error_issue e]

/-! ## Drift classifier (`drift_checker.py`) -/

/-- A single drift finding (`DriftFinding`). -/
structure DriftFinding where
  category : String
  severity : String
  path : String
  baseline_value : String
  current_value : String
  description : String
  risk_assessment : String
deriving DecidableEq, Repr

/-- Aggregated drift results (`DriftReport`). -/
structure DriftReport where
  drift_detected : Bool
  findings : List DriftFinding
  critical_count : Nat
  warning_count : Nat
  info_count : Nat
  summary_text : String
deriving DecidableEq, Repr

/-- `DANGEROUS_ACTIONS` constant of the drift checker. -/
def DANGEROUS_ACTIONS : List String :=
  ["delete", "transfer", "execute", "approve"]

/-- `SECURITY_CRITICAL_DIMENSIONS` constant of the drift checker. -/
def SECURITY_CRITICAL_DIMENSIONS : List String :=
  ["scope_compliance", "authority_verification", "incident_detection", "isolation_integrity"]

/-- Keyed agent lookup, `{a.agent_id: a for a in agents}[id]`.  A Python
dict keeps the last duplicate, but agent ids are YAML mapping keys and
therefore unique, under which first and last match coincide. -/
def find_agent (agents : List AgentConfig) (id : String) : Option AgentConfig :=
  agents.find? (fun a => a.agent_id = id)

/-- `_check_scope_changes`: per-agent action, target and boundary
expansion relative to the baseline. -/
def check_scope_changes (baseline current : GovernanceConfig) : List DriftFinding :=
  current.agents.flatMap (fun agent =>
    match find_agent baseline.agents agent.agent_id with
    | none => []
    | some base_agent =>
        let new_actions := diffB agent.scope base_agent.scope
        let action_part :=
          if new_actions.isEmpty then []
          else
            let dangerous := interB new_actions DANGEROUS_ACTIONS
            [ { category := "scope_expansion",
                severity := if dangerous.isEmpty then "warning" else "critical",
                path := "agents." ++ agent.agent_id ++ ".scope.actions",
                baseline_value := toString (sortStr base_agent.scope),
                current_value := toString (sortStr agent.scope),
                description := s!"Agent {agent.agent_id} gained new actions",
                risk_assessment :=
                  if dangerous.isEmpty then "Scope expanded with non-dangerous actions"
                  else "CRITICAL: Expansion includes dangerous actions" } ]
        let new_targets := diffB agent.targets.dedup base_agent.targets
        let target_part :=
          if new_targets.isEmpty then []
          else
            [ { category := "scope_expansion",
                severity := "warning",
                path := "agents." ++ agent.agent_id ++ ".scope.targets",
                baseline_value := toString (sortStr base_agent.targets),
                current_value := toString (sortStr agent.targets),
                description := s!"Agent {agent.agent_id} gained new targets",
                risk_assessment := "Agent now has access to additional resources" } ]
        let new_boundaries := diffB agent.boundaries.dedup base_agent.boundaries
        let boundary_part :=
          if new_boundaries.isEmpty then []
          else
            [ { category := "scope_expansion",
                severity := "warning",
                path := "agents." ++ agent.agent_id ++ ".scope.boundaries",
                baseline_value := toString (sortStr base_agent.boundaries),
                current_value := toString (sortStr agent.boundaries),
                description := s!"Agent {agent.agent_id} gained new boundaries",
                risk_assessment := "Agent boundary set expanded" } ]
        action_part ++ target_part ++ boundary_part)

/-- `_check_threshold_changes`: asymmetric threshold drift
classification. -/
def check_threshold_changes (baseline current : GovernanceConfig) : List DriftFinding :=
  let allow_part :=
    if current.allow_threshold < baseline.allow_threshold then
      [ { category := "threshold_relaxation",
          severity := "warning",
          path := "thresholds.allow",
          baseline_value := toString baseline.allow_threshold,
          current_value := toString current.allow_threshold,
          description := "Allow threshold decreased (easier to approve actions)",
          risk_assessment := "Lower allow threshold means actions need less confidence to proceed" } ]
    else if baseline.allow_threshold < current.allow_threshold then
      [ { category := "threshold_strictening",
          severity := "info",
          path := "thresholds.allow",
          baseline_value := toString baseline.allow_threshold,
          current_value := toString current.allow_threshold,
          description := "Allow threshold increased (stricter)",
          risk_assessment := "Stricter threshold - governance is being tightened" } ]
    else []
  let deny_part :=
    if current.deny_threshold < baseline.deny_threshold then
      [ { category := "threshold_relaxation",
          severity := "warning",
          path := "thresholds.deny",
          baseline_value := toString baseline.deny_threshold,
          current_value := toString current.deny_threshold,
          description := "Deny threshold decreased (harder to deny actions)",
          risk_assessment := "Lower deny threshold means more actions fall into the ambiguous zone" } ]
    else []
  allow_part ++ deny_part

/-- The critical finding `_check_veto_changes` emits per removed veto
dimension. -/
def mk_veto_removal_finding (baseline_vetoes current_vetoes : List String)
    (dim : String) : DriftFinding :=
  { category := "veto_removal",
    severity := "critical",
    path := "dimensions.vetoes",
    baseline_value := toString (sortStr baseline_vetoes),
    current_value := toString (sortStr current_vetoes),
    description := s!"Veto dimension {dim} was removed",
    risk_assessment := s!"Removing veto authority from {dim} removes a hard safety boundary." }

/-- The info finding `_check_veto_changes` emits per added veto
dimension. -/
def mk_veto_addition_finding (baseline_vetoes current_vetoes : List String)
    (dim : String) : DriftFinding :=
  { category := "veto_addition",
    severity := "info",
    path := "dimensions.vetoes",
    baseline_value := toString (sortStr baseline_vetoes),
    current_value := toString (sortStr current_vetoes),
    description := s!"Veto dimension {dim} was added",
    risk_assessment := "New veto dimension adds a hard safety boundary" }

/-- `_check_veto_changes`: removals are always critical, additions are
info. -/
def check_veto_changes (baseline current : GovernanceConfig) : List DriftFinding :=
  let baseline_vetoes := baseline.veto_dimensions.dedup
  let current_vetoes := current.veto_dimensions.dedup
  (sortStr (diffB baseline_vetoes current_vetoes)).map
    (mk_veto_removal_finding baseline_vetoes current_vetoes) ++
  (sortStr (diffB current_vetoes baseline_vetoes)).map
    (mk_veto_addition_finding baseline_vetoes current_vetoes)

/-- The finding `_check_weight_changes` emits per reduced dimension
weight. -/
def mk_weight_reduction_finding (dim : String) (base_weight curr_weight : ℚ) : DriftFinding :=
  { category := "weight_reduction",
    severity := if SECURITY_CRITICAL_DIMENSIONS.contains dim then "warning" else "info",
    path := "dimensions.weights." ++ dim,
    baseline_value := toString base_weight,
    current_value := toString curr_weight,
    description := s!"Dimension {dim} weight decreased",
    risk_assessment :=
      if SECURITY_CRITICAL_DIMENSIONS.contains dim then
        "Security-critical dimension was de-emphasized"
      else "Dimension de-emphasized in governance scoring" }

/-- `_check_weight_changes`: iterates the baseline dimensions only; a
dimension missing from the current weights is read as 0.0. -/
def check_weight_changes (baseline current : GovernanceConfig) : List DriftFinding :=
  baseline.dimension_weights.filterMap (fun p =>
    let curr_weight := lookupD current.dimension_weights p.1 0
    if curr_weight < p.2 then some (mk_weight_reduction_finding p.1 p.2 curr_weight)
    else none)

/-- `_check_agent_additions_removals`: both directions are info. -/
def check_agent_additions_removals (baseline current : GovernanceConfig) : List DriftFinding :=
  let baseline_ids := (baseline.agents.map (fun a => a.agent_id)).dedup
  let current_ids := (current.agents.map (fun a => a.agent_id)).dedup
  (sortStr (diffB current_ids baseline_ids)).filterMap (fun id =>
    (find_agent current.agents id).map (fun agent =>
      { category := "agent_added",
        severity := "info",
        path := "agents." ++ id,
        baseline_value := "(not present)",
        current_value := toString (sortStr agent.scope),
        description := s!"New agent {id} added",
        risk_assessment := "New agent added to governance config" })) ++
  (sortStr (diffB baseline_ids current_ids)).map (fun id =>
    { category := "agent_removed",
      severity := "info",
      path := "agents." ++ id,
      baseline_value := "(present)",
      current_value := "(removed)",
      description := s!"Agent {id} was removed",
      risk_assessment := "Agent definition removed from governance config" })

/-- `_check_trust_changes`: four independent trust-relaxation checks,
each a warning. -/
def check_trust_changes (baseline current : GovernanceConfig) : List DriftFinding :=
  let base_vd := lookupD baseline.trust_settings "violation_decrement" (mkRat 1 20)
  let curr_vd := lookupD current.trust_settings "violation_decrement" (mkRat 1 20)
  let vd_part :=
    if curr_vd < base_vd then
      [ { category := "trust_relaxation",
          severity := "warning",
          path := "trust.violation_decrement",
          baseline_value := toString base_vd,
          current_value := toString curr_vd,
          description := "violation_decrement decreased (violations cost less trust)",
          risk_assessment := "Trust penalties for violations have been reduced" } ]
    else []
  let base_si := lookupD baseline.trust_settings "success_increment" (mkRat 1 100)
  let curr_si := lookupD current.trust_settings "success_increment" (mkRat 1 100)
  let si_part :=
    if base_si < curr_si then
      [ { category := "trust_relaxation",
          severity := "warning",
          path := "trust.success_increment",
          baseline_value := toString base_si,
          current_value := toString curr_si,
          description := "success_increment increased (trust builds faster)",
          risk_assessment := "Trust accumulates more quickly after successful actions" } ]
    else []
  let base_ceil := lookupD baseline.trust_settings "ceiling" (mkRat 19 20)
  let curr_ceil := lookupD current.trust_settings "ceiling" (mkRat 19 20)
  let ceil_part :=
    if base_ceil < curr_ceil then
      [ { category := "trust_relaxation",
          severity := "warning",
          path := "trust.ceiling",
          baseline_value := toString base_ceil,
          current_value := toString curr_ceil,
          description := "Trust ceiling increased",
          risk_assessment := "Maximum achievable trust has been raised" } ]
    else []
  let base_floor := lookupD baseline.trust_settings "floor" (mkRat 1 20)
  let curr_floor := lookupD current.trust_settings "floor" (mkRat 1 20)
  let floor_part :=
    if curr_floor < base_floor then
      [ { category := "trust_relaxation",
          severity := "warning",
          path := "trust.floor",
          baseline_value := toString base_floor,
          current_value := toString curr_floor,
          description := "Trust floor decreased",
          risk_assessment := "Minimum trust level has been lowered" } ]
    else []
  vd_part ++ si_part ++ ceil_part ++ floor_part

/-- The six drift checks of `check_drift`, concatenated in source
order. -/
def drift_findings (baseline current : GovernanceConfig) : List DriftFinding :=
  check_scope_changes baseline current ++
  check_threshold_changes baseline current ++
  check_veto_changes baseline current ++
  check_weight_changes baseline current ++
  check_agent_additions_removals baseline current ++
  check_trust_changes baseline current

/-- Report assembly at the end of `check_drift`: severity tallies and
`drift_detected = len(findings) > 0`.  The human-readable summary is
abbreviated to its fixed leading line. -/
def build_drift_report (findings : List DriftFinding) : DriftReport :=
  { drift_detected := !findings.isEmpty,
    findings := findings,
    critical_count := (findings.filter (fun f => f.severity = "critical")).length,
    warning_count := (findings.filter (fun f => f.severity = "warning")).length,
    info_count := (findings.filter (fun f => f.severity = "info")).length,
    summary_text :=
      if findings.isEmpty then "No configuration drift detected."
      else "Configuration drift detected." }

/-- `check_drift` when a baseline config was obtained. -/
def drift_against (baseline current : GovernanceConfig) : DriftReport :=
  build_drift_report (drift_findings baseline current)

/-- Outcome of the `subprocess.run(["git", "show", ...])` call in
`_load_baseline`: normal completion with an exit code and stdout,
`subprocess.TimeoutExpired`, or `FileNotFoundError` (git executable
missing). -/
inductive SubprocessOutcome where
  | completed (returncode : Int) (stdout : String)
  | timedOut
  | execNotFound
deriving DecidableEq, Repr

/-- `_load_baseline`: any failure - non-zero exit, timeout, missing
executable, or a parse error from `load_config_from_string` (raised as
`ConfigError`, caught by the blanket except clause) - yields `none`.
`parse` abstracts `load_config_from_string` (YAML parsing plus
`parse_config`), returning the `ConfigError.errors` list on failure. -/
def load_baseline (run_git_show : SubprocessOutcome)
    (parse : String → Except (List String) GovernanceConfig) : Option GovernanceConfig :=
  match run_git_show with
  | SubprocessOutcome.completed rc out => if rc ≠ 0 then none else (parse out).toOption
  | SubprocessOutcome.timedOut => none
  | SubprocessOutcome.execNotFound => none

/-- The report `check_drift` returns when no baseline is obtainable. -/
def no_baseline_report : DriftReport :=
  { drift_detected := false,
    findings := [],
    critical_count := 0,
    warning_count := 0,
    info_count := 0,
    summary_text := "No baseline found - first governance configuration." }

/-- `check_drift`: load the baseline from git and diff against it. -/
def check_drift (run_git_show : SubprocessOutcome)
    (parse : String → Except (List String) GovernanceConfig)
    (current_config : GovernanceConfig) : DriftReport :=
  match load_baseline run_git_show parse with
  | none => no_baseline_report
  | some baseline_config => drift_against baseline_config current_config

/-! ## Compound authority analyzer (`compound_authority.py`) -/

/-- One entry of the `DANGEROUS_COMBINATIONS` table: a required action
set, the capability it yields, and a description. -/
structure DangerousCombo where
  required : List String
  capability : String
  description : String
deriving DecidableEq, Repr

/-- The `DANGEROUS_COMBINATIONS` table, in source order. -/
def DANGEROUS_COMBINATIONS : List DangerousCombo :=
  [ { required := ["read", "write"],
      capability := "effective_update",
      description := "Combined read+write on the same target enables data modification" },
    { required := ["read", "export"],
      capability := "data_exfiltration",
      description := "Combined read+export enables data exfiltration to external systems" },
    { required := ["delete", "write"],
      capability := "data_replacement",
      description := "Combined delete+write enables complete data replacement" },
    { required := ["read", "transfer"],
      capability := "data_movement",
      description := "Combined read+transfer enables data aggregation and movement" },
    { required := ["authenticate", "authorize", "execute"],
      capability := "full_privilege_chain",
      description := "Combined authenticate+authorize+execute creates a full privilege chain" },
    { required := ["read", "delete"],
      capability := "targeted_deletion",
      description := "Combined read+delete enables targeted data removal" },
    { required := ["query", "write"],
      capability := "query_driven_modification",
      description := "Combined query+write enables data modification based on query results" } ]

/-- The three capability names the analyzer treats as most severe (the
tuple written inline twice in the source). -/
def CRITICAL_CAPABILITIES : List String :=
  ["full_privilege_chain", "data_exfiltration", "data_replacement"]

/-- A single compound authority finding (`CompoundAuthorityFinding`). -/
structure CompoundAuthorityFinding where
  severity : String
  agents_involved : List String
  capabilities_combined : List String
  resulting_capability : String
  description : String
  mitigation : String
deriving DecidableEq, Repr

/-- Targets shared by two agents: `set(a.targets) & set(b.targets)`. -/
def shared_targets_of (a b : AgentConfig) : List String :=
  interB a.targets.dedup b.targets

/-- The filter of the inner loop of `_analyze_cross_agent`: a dangerous
combination covered by the union of the two scopes but by neither scope
alone. -/
def cross_condition (a b : AgentConfig) (d : DangerousCombo) : Bool :=
  subsetB d.required (a.scope ++ b.scope) &&
  !(subsetB d.required a.scope) && !(subsetB d.required b.scope)

/-- The cross-agent finding for one pair and one dangerous combination. -/
def mk_cross_finding (a b : AgentConfig) (d : DangerousCombo) : CompoundAuthorityFinding :=
  { severity := if CRITICAL_CAPABILITIES.contains d.capability then "critical" else "warning",
    agents_involved := [a.agent_id, b.agent_id],
    capabilities_combined := sortStr d.required,
    resulting_capability := d.capability,
    description := s!"Agents {a.agent_id} and {b.agent_id} combine on shared targets: {d.description}",
    mitigation := "Consider removing shared targets between these agents, or restricting the actions of one agent." }

/-- The body of `_analyze_cross_agent` for one unordered agent pair:
skip pairs sharing no target, then emit one finding per dangerous
combination genuinely requiring both agents. -/
def cross_pair_findings (a b : AgentConfig) : List CompoundAuthorityFinding :=
  if (shared_targets_of a b).isEmpty then []
  else (DANGEROUS_COMBINATIONS.filter (cross_condition a b)).map (mk_cross_finding a b)

/-- `_analyze_cross_agent` over all pairs (`itertools.combinations`),
findings only (the parallel machine-readable risks list repeats the
same data and is not modelled). -/
def analyze_cross_agent (config : GovernanceConfig) : List CompoundAuthorityFinding :=
  (pairs config.agents).flatMap (fun p => cross_pair_findings p.1 p.2)

/-- The single-agent finding for one agent and one dangerous
combination. -/
def mk_single_finding (agent : AgentConfig) (d : DangerousCombo) : CompoundAuthorityFinding :=
  { severity := if CRITICAL_CAPABILITIES.contains d.capability then "warning" else "info",
    agents_involved := [agent.agent_id],
    capabilities_combined := sortStr d.required,
    resulting_capability := d.capability,
    description := s!"Agent {agent.agent_id} has combined capabilities: {d.description}",
    mitigation := "Consider splitting the agent into separate agents." }

/-- The body of `_analyze_single_agent_compounds` for one agent. -/
def single_agent_findings (agent : AgentConfig) : List CompoundAuthorityFinding :=
  (DANGEROUS_COMBINATIONS.filter (fun d => subsetB d.required agent.scope)).map
    (mk_single_finding agent)

/-- `_analyze_single_agent_compounds` over all agents. -/
def analyze_single_agent_compounds (config : GovernanceConfig) : List CompoundAuthorityFinding :=
  config.agents.flatMap single_agent_findings

/-- One simulated workflow step (`CompletedStep` of the nomotic
library, the fields the analyzer fills in). -/
structure CompletedStep where
  step_id : String
  step_number : Nat
  method : String
  target : String
  verdict : String
  ucs : ℚ
  timestamp : String
deriving DecidableEq, Repr

/-- A compound-authority flag returned by the external
`WorkflowGovernor.assess_workflow`. -/
structure GovernorFlag where
  severity : String
  methods_chained : List String
  resulting_capability : String
  description : String
deriving DecidableEq, Repr

/-- `verdict.verdict.name` rendering. -/
def verdict_name : Verdict → String
  | Verdict.ALLOW => "ALLOW"
  | Verdict.DENY => "DENY"
  | Verdict.MODIFY => "MODIFY"
  | Verdict.ESCALATE => "ESCALATE"
  | Verdict.SUSPEND => "SUSPEND"

/-- `actions_list = sorted(agent.scope)`: the sorted distinct actions. -/
def actions_list_of (agent : AgentConfig) : List String :=
  sortStr agent.scope.dedup

/-- Target of step `i`: the agent targets cycled, or a fixed default
when the agent has none. -/
def step_target (targets : List String) (i : Nat) : String :=
  if targets.isEmpty then "default" else targets.getD (i % targets.length) "default"

/-- The step-building loop of `_analyze_workflows`: one sandbox-runtime
evaluation per action, targets cycled.  `evalFn agent_id action_type
target trust` abstracts `runtime.evaluate`; `now` abstracts
`datetime.now`. -/
def build_steps (evalFn : String → String → String → ℚ → VerdictResult)
    (now : String) (agent : AgentConfig) : List CompletedStep :=
  (actions_list_of agent).enum.map (fun p =>
    let target := step_target agent.targets p.1
    let v := evalFn agent.agent_id p.2 target agent.initial_trust
    { step_id := "step-" ++ toString (p.1 + 1),
      step_number := p.1 + 1,
      method := p.2,
      target := target,
      verdict := verdict_name v.verdict,
      ucs := v.ucs,
      timestamp := now })

/-- `all(ucs_values[i] <= ucs_values[i + 1] for i in ...)`. -/
def nondecreasing (l : List ℚ) : Bool :=
  (l.zip l.tail).all (fun p => decide (p.1 ≤ p.2))

/-- Conversion of one governor compound-authority flag into a finding. -/
def mk_flag_finding (agent : AgentConfig) (flag : GovernorFlag) : CompoundAuthorityFinding :=
  { severity := if flag.severity = "critical" ∨ flag.severity = "warning" then flag.severity else "info",
    agents_involved := [agent.agent_id],
    capabilities_combined := flag.methods_chained,
    resulting_capability := flag.resulting_capability,
    description := s!"Agent {agent.agent_id} workflow: {flag.description}",
    mitigation := "Review the action sequence and consider whether sequential execution should be governed as a compound operation." }

/-- The info-severity escalation-trend finding. -/
def mk_escalation_finding (agent : AgentConfig) : CompoundAuthorityFinding :=
  { severity := "info",
    agents_involved := [agent.agent_id],
    capabilities_combined := actions_list_of agent,
    resulting_capability := "authority_escalation",
    description := s!"Agent {agent.agent_id} shows increasing UCS across sequential actions, which may indicate an authority escalation pattern",
    mitigation := "Review the action ordering and consider whether sequential action execution should affect UCS scoring." }

/-- The `ucs_values` list collected from the simulated steps. -/
def ucs_values_of (evalFn : String → String → String → ℚ → VerdictResult)
    (now : String) (agent : AgentConfig) : List ℚ :=
  (build_steps evalFn now agent).map (fun s => s.ucs)

/-- The escalation-pattern block at the end of the `_analyze_workflows`
loop body: length at least 3, monotonically non-decreasing UCS, and a
final value more than 0.1 above the first. -/
def escalation_findings (evalFn : String → String → String → ℚ → VerdictResult)
    (now : String) (agent : AgentConfig) : List CompoundAuthorityFinding :=
  if 3 ≤ (ucs_values_of evalFn now agent).length then
    if nondecreasing (ucs_values_of evalFn now agent) ∧
        (ucs_values_of evalFn now agent).headD 0 + mkRat 1 10
          < (ucs_values_of evalFn now agent).getLastD 0 then
      [mk_escalation_finding agent]
    else []
  else []

/-- The body of `_analyze_workflows` for one agent: skip agents with
fewer than two distinct actions; convert the external governor flags to
findings; then apply the UCS escalation heuristic.  `assess` abstracts
`WorkflowGovernor.assess_workflow` restricted to its
`compound_authority_flags` output (its risk factors feed only the
machine-readable risks list, which carries no findings). -/
def workflow_agent_findings
    (evalFn : String → String → String → ℚ → VerdictResult)
    (assess : AgentConfig → List CompletedStep → List GovernorFlag)
    (now : String) (agent : AgentConfig) : List CompoundAuthorityFinding :=
  if agent.scope.dedup.length < 2 then []
  else
    (assess agent (build_steps evalFn now agent)).map (mk_flag_finding agent) ++
    escalation_findings evalFn now agent

/-- `_analyze_workflows` over all agents, findings only. -/
def analyze_workflows
    (evalFn : String → String → String → ℚ → VerdictResult)
    (assess : AgentConfig → List CompletedStep → List GovernorFlag)
    (now : String) (config : GovernanceConfig) : List CompoundAuthorityFinding :=
  config.agents.flatMap (workflow_agent_findings evalFn assess now)

/-- Aggregated compound authority results
(`CompoundAuthorityReport`, counts and findings). -/
structure CompoundAuthorityReport where
  findings : List CompoundAuthorityFinding
  critical_count : Nat
  warning_count : Nat
  summary_text : String
deriving DecidableEq, Repr

/-- `analyze_compound_authority`: the three sub-analyses concatenated
in source order (cross-agent, workflows, single-agent), with severity
tallies. -/
def analyze_compound_authority
    (evalFn : String → String → String → ℚ → VerdictResult)
    (assess : AgentConfig → List CompletedStep → List GovernorFlag)
    (now : String) (config : GovernanceConfig) : CompoundAuthorityReport :=
  let findings :=
    analyze_cross_agent config ++
    analyze_workflows evalFn assess now config ++
    analyze_single_agent_compounds config
  { findings := findings,
    critical_count := (findings.filter (fun f => f.severity = "critical")).length,
    warning_count := (findings.filter (fun f => f.severity = "warning")).length,
    summary_text :=
      if findings.isEmpty then "No compound authority vulnerabilities detected."
      else "Compound authority analysis found issues." }

/-! ## Lemmas about the validator check loop -/

theorem apply_issue_issues (r : ValidationReport) (i : ValidationIssue) :
    (apply_issue r i).issues = r.issues ++ [i] := by
  unfold apply_issue
  split_ifs <;> rfl

theorem apply_issue_checks_run (r : ValidationReport) (i : ValidationIssue) :
    (apply_issue r i).checks_run = r.checks_run := by
  unfold apply_issue
  split_ifs <;> rfl

theorem foldl_apply_issue_issues (is : List ValidationIssue) (r : ValidationReport) :
    (is.foldl apply_issue r).issues = r.issues ++ is := by
  induction is generalizing r with
  | nil => simp
  | cons i is ih => simp [List.foldl_cons, ih, apply_issue_issues]

theorem foldl_apply_issue_checks_run (is : List ValidationIssue) (r : ValidationReport) :
    (is.foldl apply_issue r).checks_run = r.checks_run := by
  induction is generalizing r with
  | nil => rfl
  | cons i is ih => simp [List.foldl_cons, ih, apply_issue_checks_run]

theorem apply_outcome_issues (r : ValidationReport) (o : Except String (List ValidationIssue)) :
    (apply_outcome r o).issues = r.issues ++ outcome_issues o := by
  cases o with
  | ok issues => simp [apply_outcome, outcome_issues, foldl_apply_issue_issues]
  | error e => rfl

theorem apply_outcome_checks_run (r : ValidationReport) (o : Except String (List ValidationIssue)) :
    (apply_outcome r o).checks_run = r.checks_run + 1 := by
  cases o with
  | ok issues => simp [apply_outcome, foldl_apply_issue_checks_run]
  | error e => rfl

theorem foldl_apply_outcome_issues (outcomes : List (Except String (List ValidationIssue)))
    (r : ValidationReport) :
    (outcomes.foldl apply_outcome r).issues = r.issues ++ outcomes.flatMap outcome_issues := by
  induction outcomes generalizing r with
  | nil => simp
  | cons o os ih => simp [List.foldl_cons, ih, apply_outcome_issues]

theorem foldl_apply_outcome_checks_run (outcomes : List (Except String (List ValidationIssue)))
    (r : ValidationReport) :
    (outcomes.foldl apply_outcome r).checks_run = r.checks_run + outcomes.length := by
  induction outcomes generalizing r with
  | nil => simp
  | cons o os ih => simp [List.foldl_cons, ih, apply_outcome_checks_run]; omega

theorem run_checks_issues (outcomes : List (Except String (List ValidationIssue))) :
    (run_checks outcomes).issues = outcomes.flatMap outcome_issues := by
  simp [run_checks, set_status, foldl_apply_outcome_issues, empty_report]

theorem run_checks_checks_run (outcomes : List (Except String (List ValidationIssue))) :
    (run_checks outcomes).checks_run = outcomes.length := by
  simp [run_checks, set_status, foldl_apply_outcome_checks_run, empty_report]

/-- Claim C4: a check that raises is caught, contributes exactly one
warning-severity internal_error issue, and does not stop the remaining
checks: the report issues are the per-outcome contributions in order,
with every non-failing check contributing exactly its own issues, and
`checks_run` counts every check attempted (8 of them in `validate`). -/
theorem C4_check_isolation :
    (∀ outcomes : List (Except String (List ValidationIssue)),
      (run_checks outcomes).checks_run = outcomes.length ∧
      (run_checks outcomes).issues = outcomes.flatMap outcome_issues) ∧
    (∀ e : String,
      outcome_issues (Except.error e) = [internal_error_issue e] ∧
      (internal_error_issue e).severity = "warning" ∧
      (internal_error_issue e).check_name = "internal_error") ∧
    (∀ issues : List ValidationIssue, outcome_issues (Except.ok issues) = issues) ∧
    (∀ evalFn config, (validate evalFn config).checks_run = 8) := by
  refine ⟨fun outcomes => ⟨run_checks_checks_run outcomes, run_checks_issues outcomes⟩,
    fun e => ⟨rfl, rfl, rfl⟩, fun issues => rfl, fun evalFn config => ?_⟩
  simp [validate, run_checks_checks_run]

/-! ## Which check emits which check_name -/

theorem check_veto_weight_contradiction_names {config : GovernanceConfig}
    {i : ValidationIssue} (h : i ∈ check_veto_weight_contradiction config) :
    i.check_name = "veto_weight_contradiction" := by
  rcases List.mem_filterMap.mp h with ⟨dim, _, heq⟩
  by_cases hc : lookupD config.dimension_weights dim 0 = 0
  · rw [if_pos hc] at heq
    cases heq
    rfl
  · rw [if_neg hc] at heq
    cases heq

theorem check_missing_critical_vetoes_names {config : GovernanceConfig}
    {i : ValidationIssue} (h : i ∈ check_missing_critical_vetoes config) :
    i.check_name = "missing_critical_veto" := by
  rcases List.mem_filterMap.mp h with ⟨p, _, heq⟩
  by_cases hc : mkRat 3 2 < p.2 ∧ config.veto_dimensions.contains p.1 = false
  · rw [if_pos hc] at heq
    cases heq
    rfl
  · rw [if_neg hc] at heq
    cases heq

theorem check_overlapping_scopes_names {config : GovernanceConfig}
    {i : ValidationIssue} (h : i ∈ check_overlapping_scopes config) :
    i.check_name = "overlapping_scopes" := by
  rcases List.mem_filterMap.mp h with ⟨p, _, heq⟩
  simp only [check_overlapping_scopes] at heq
  by_cases h1 : (interB p.1.scope write_actions).isEmpty || (interB p.2.scope write_actions).isEmpty
  · rw [if_pos h1] at heq
    cases heq
  · rw [if_neg h1] at heq
    by_cases h2 : (interB p.1.targets p.2.targets).isEmpty
    · rw [if_pos h2] at heq
      cases heq
    · rw [if_neg h2] at heq
      cases heq
      rfl

theorem check_overprivileged_agents_names {config : GovernanceConfig}
    {i : ValidationIssue} (h : i ∈ check_overprivileged_agents config) :
    i.check_name = "overprivileged_agent" := by
  rcases List.mem_flatMap.mp h with ⟨agent, _, hmem⟩
  rcases List.mem_append.mp hmem with h1 | h1 <;>
    (split at h1 <;> simp_all)

theorem check_trust_floor_above_minimum_names {config : GovernanceConfig}
    {i : ValidationIssue} (h : i ∈ check_trust_floor_above_minimum config) :
    i.check_name = "trust_floor_above_minimum" := by
  rcases List.mem_filterMap.mp h with ⟨agent, _, heq⟩
  by_cases hc : agent.min_trust < lookupD config.trust_settings "floor" (mkRat 1 20)
  · rw [if_pos hc] at heq
    cases heq
    rfl
  · rw [if_neg hc] at heq
    cases heq

theorem check_compliance_dimensions_names {config : GovernanceConfig}
    {i : ValidationIssue} (h : i ∈ check_compliance_dimensions config) :
    i.check_name = "compliance_dimension_alignment" := by
  rcases List.mem_flatMap.mp h with ⟨framework, _, hmem⟩
  rcases hf : COMPLIANCE_DIMENSION_HINTS.find? (fun hh => hh.1 = framework) with _ | hints
  · rw [hf] at hmem
    simp at hmem
  · rw [hf] at hmem
    rcases List.mem_filterMap.mp hmem with ⟨p, _, heq⟩
    by_cases hc : lookupD config.dimension_weights p.1 0 < p.2
    · rw [if_pos hc] at heq
      cases heq
      rfl
    · rw [if_neg hc] at heq
      cases heq

theorem check_simulation_names {evalFn : String → String → String → ℚ → Except String VerdictResult}
    {config : GovernanceConfig} {i : ValidationIssue}
    (h : i ∈ outcome_issues (check_simulation evalFn config)) :
    i.check_name = "internal_error" ∨
    i.check_name = "simulation_in_scope_denied" ∨
    i.check_name = "simulation_unauthorized_allowed" := by
  obtain ⟨ver, ags, dw, vd, at', dt, ts, cf⟩ := config
  cases ags with
  | nil => simp [check_simulation, outcome_issues] at h
  | cons agent rest =>
      simp only [check_simulation] at h
      by_cases h1 : agent.targets.isEmpty || agent.scope.isEmpty
      · rw [if_pos h1] at h
        rcases h2 : evalFn agent.agent_id "delete" "unauthorized_system" agent.initial_trust with e | v
        · rw [h2] at h
          simp [outcome_issues] at h
          subst h
          exact Or.inl rfl
        · rw [h2] at h
          simp only [outcome_issues, List.nil_append] at h
          split at h
          · simp at h
            subst h
            exact Or.inr (Or.inr rfl)
          · simp at h
      · rw [if_neg h1] at h
        rcases h2 : evalFn agent.agent_id (agent.scope.headD "") (agent.targets.headD "") agent.initial_trust with e | v
        · rw [h2] at h
          simp [outcome_issues] at h
          subst h
          exact Or.inl rfl
        · rw [h2] at h
          rcases h3 : evalFn agent.agent_id "delete" "unauthorized_system" agent.initial_trust with e' | v'
          · rw [h3] at h
            simp [outcome_issues] at h
            subst h
            exact Or.inl rfl
          · rw [h3] at h
            simp only [outcome_issues] at h
            rcases List.mem_append.mp h with h4 | h4 <;> split at h4 <;> simp at h4 <;> subst h4
            · exact Or.inr (Or.inl rfl)
            · exact Or.inr (Or.inr rfl)

/-! ## Claim C1 -/

theorem filter_inversion_veto_weight (config : GovernanceConfig) :
    (check_veto_weight_contradiction config).filter
      (fun i => i.check_name = "threshold_inversion") = [] := by
  apply List.filter_eq_nil_iff.mpr
  intro i hi
  simp [check_veto_weight_contradiction_names hi]

theorem filter_inversion_missing_vetoes (config : GovernanceConfig) :
    (check_missing_critical_vetoes config).filter
      (fun i => i.check_name = "threshold_inversion") = [] := by
  apply List.filter_eq_nil_iff.mpr
  intro i hi
  simp [check_missing_critical_vetoes_names hi]

theorem filter_inversion_overlapping (config : GovernanceConfig) :
    (check_overlapping_scopes config).filter
      (fun i => i.check_name = "threshold_inversion") = [] := by
  apply List.filter_eq_nil_iff.mpr
  intro i hi
  simp [check_overlapping_scopes_names hi]

theorem filter_inversion_overprivileged (config : GovernanceConfig) :
    (check_overprivileged_agents config).filter
      (fun i => i.check_name = "threshold_inversion") = [] := by
  apply List.filter_eq_nil_iff.mpr
  intro i hi
  simp [check_overprivileged_agents_names hi]

theorem filter_inversion_trust_floor (config : GovernanceConfig) :
    (check_trust_floor_above_minimum config).filter
      (fun i => i.check_name = "threshold_inversion") = [] := by
  apply List.filter_eq_nil_iff.mpr
  intro i hi
  simp [check_trust_floor_above_minimum_names hi]

theorem filter_inversion_compliance (config : GovernanceConfig) :
    (check_compliance_dimensions config).filter
      (fun i => i.check_name = "threshold_inversion") = [] := by
  apply List.filter_eq_nil_iff.mpr
  intro i hi
  simp [check_compliance_dimensions_names hi]

theorem filter_inversion_simulation
    (evalFn : String → String → String → ℚ → Except String VerdictResult)
    (config : GovernanceConfig) :
    (outcome_issues (check_simulation evalFn config)).filter
      (fun i => i.check_name = "threshold_inversion") = [] := by
  apply List.filter_eq_nil_iff.mpr
  intro i hi
  rcases check_simulation_names hi with h | h | h <;> simp [h]

/-- Claim C1: for every policy with `allow_threshold <= deny_threshold`,
`validate` reports exactly one issue named threshold_inversion and its
severity is critical, whatever the rest of the policy and whatever the
injected runtime does; with `allow_threshold > deny_threshold` no
threshold_inversion issue is emitted. -/
theorem C1_threshold_inversion (config : GovernanceConfig)
    (evalFn : String → String → String → ℚ → Except String VerdictResult) :
    (config.allow_threshold ≤ config.deny_threshold →
      ((validate evalFn config).issues.filter
          (fun i => i.check_name = "threshold_inversion")).map (fun i => i.severity)
        = ["critical"]) ∧
    (config.deny_threshold < config.allow_threshold →
      (validate evalFn config).issues.filter
          (fun i => i.check_name = "threshold_inversion") = []) := by
  have hrest : ∀ l : List ValidationIssue,
      ((l ++ check_veto_weight_contradiction config ++ check_missing_critical_vetoes config
        ++ check_overlapping_scopes config ++ check_overprivileged_agents config
        ++ check_trust_floor_above_minimum config ++ check_compliance_dimensions config
        ++ outcome_issues (check_simulation evalFn config)).filter
        (fun i => i.check_name = "threshold_inversion"))
      = l.filter (fun i => i.check_name = "threshold_inversion") := by
    intro l
    simp only [List.filter_append, filter_inversion_veto_weight,
      filter_inversion_missing_vetoes, filter_inversion_overlapping,
      filter_inversion_overprivileged, filter_inversion_trust_floor,
      filter_inversion_compliance, filter_inversion_simulation, List.append_nil]
  have hiss : (validate evalFn config).issues
      = check_threshold_inversion config ++ check_veto_weight_contradiction config
        ++ check_missing_critical_vetoes config ++ check_overlapping_scopes config
        ++ check_overprivileged_agents config ++ check_trust_floor_above_minimum config
        ++ check_compliance_dimensions config
        ++ outcome_issues (check_simulation evalFn config) := by
    unfold validate
    rw [run_checks_issues]
    simp [outcome_issues]
  constructor
  · intro hle
    rw [hiss, hrest, check_threshold_inversion, if_pos hle]
    simp
  · intro hlt
    rw [hiss, hrest, check_threshold_inversion, if_neg (not_le.mpr hlt)]
    simp

/-- Witness for C1 at concrete inputs: an inverted policy yields the
single critical threshold_inversion issue, a well-ordered one yields
none. -/
theorem C1_threshold_inversion_witness :
    (mkRat 7 10 ≤ mkRat 8 10 ∧
      ((validate (fun _ _ _ _ => Except.ok ⟨Verdict.DENY, 0⟩)
          { version := "1.0", agents := [], dimension_weights := [],
            veto_dimensions := [], allow_threshold := mkRat 7 10, deny_threshold := mkRat 8 10,
            trust_settings := [], compliance_frameworks := [] }).issues.filter
          (fun i => i.check_name = "threshold_inversion")).map (fun i => i.severity)
        = ["critical"]) ∧
    (mkRat 3 10 < mkRat 7 10 ∧
      (validate (fun _ _ _ _ => Except.ok ⟨Verdict.DENY, 0⟩)
          { version := "1.0", agents := [], dimension_weights := [],
            veto_dimensions := [], allow_threshold := mkRat 7 10, deny_threshold := mkRat 3 10,
            trust_settings := [], compliance_frameworks := [] }).issues.filter
          (fun i => i.check_name = "threshold_inversion") = []) := by
  constructor
  · exact ⟨by decide,
      (C1_threshold_inversion _ _).1 (by decide)⟩
  · exact ⟨by decide,
      (C1_threshold_inversion _ _).2 (by decide)⟩

/-! ## Concrete policies for witnesses and scenario claims -/

/-- A small well-formed policy used as the base of concrete scenarios. -/
def sample_config : GovernanceConfig :=
  { version := "1.0",
    agents :=
      [ { agent_id := "agent-a", scope := ["read"], targets := ["db"], boundaries := [],
          initial_trust := mkRat 1 2, min_trust := mkRat 3 10, owner := "ops", reason := "demo" } ],
    dimension_weights := [("scope_compliance", 2), ("transparency", 1)],
    veto_dimensions := ["scope_compliance"],
    allow_threshold := mkRat 7 10,
    deny_threshold := mkRat 3 10,
    trust_settings :=
      [("success_increment", mkRat 1 100), ("violation_decrement", mkRat 1 20), ("interrupt_cost", mkRat 1 10),
       ("decay_rate", mkRat 1 100), ("floor", mkRat 1 20), ("ceiling", mkRat 19 20)],
    compliance_frameworks := [] }

/-! ## Claim C7 -/

/-- Claim C7: threshold drift is classified asymmetrically.  An
allow-threshold decrease gives exactly one warning threshold_relaxation
finding, an increase exactly one info threshold_strictening finding; a
deny-threshold decrease gives exactly one warning threshold_relaxation
finding, and a deny-threshold increase gives no finding at all. -/
theorem C7_threshold_asymmetry (baseline current : GovernanceConfig) :
    (current.allow_threshold < baseline.allow_threshold →
      ((check_threshold_changes baseline current).filter
          (fun f => f.path = "thresholds.allow")).map (fun f => (f.category, f.severity))
        = [("threshold_relaxation", "warning")]) ∧
    (baseline.allow_threshold < current.allow_threshold →
      ((check_threshold_changes baseline current).filter
          (fun f => f.path = "thresholds.allow")).map (fun f => (f.category, f.severity))
        = [("threshold_strictening", "info")]) ∧
    (current.deny_threshold < baseline.deny_threshold →
      ((check_threshold_changes baseline current).filter
          (fun f => f.path = "thresholds.deny")).map (fun f => (f.category, f.severity))
        = [("threshold_relaxation", "warning")]) ∧
    (baseline.deny_threshold ≤ current.deny_threshold →
      (check_threshold_changes baseline current).filter
          (fun f => f.path = "thresholds.deny") = []) := by
  refine ⟨fun h => ?_, fun h => ?_, fun h => ?_, fun h => ?_⟩ <;>
    (unfold check_threshold_changes;
     rw [List.filter_append];
     split_ifs <;> simp_all <;> linarith)

/-- Witness for C7 at concrete thresholds: a relaxed allow threshold
and an increased deny threshold. -/
theorem C7_threshold_asymmetry_witness :
    (mkRat 6 10 < mkRat 7 10 ∧
      ((check_threshold_changes sample_config
          { sample_config with allow_threshold := mkRat 6 10 }).filter
          (fun f => f.path = "thresholds.allow")).map (fun f => (f.category, f.severity))
        = [("threshold_relaxation", "warning")]) ∧
    (mkRat 3 10 ≤ mkRat 4 10 ∧
      (check_threshold_changes sample_config
          { sample_config with deny_threshold := mkRat 4 10 }).filter
          (fun f => f.path = "thresholds.deny") = []) := by
  constructor
  · exact ⟨by decide,
      (C7_threshold_asymmetry sample_config _).1 (by decide)⟩
  · exact ⟨by decide,
      (C7_threshold_asymmetry sample_config _).2.2.2 (by decide)⟩

/-! ## Claim C2 -/

/-- The scenario baseline of C2: three veto dimensions. -/
def veto_scenario_baseline : GovernanceConfig :=
  { sample_config with
      veto_dimensions := ["scope_compliance", "authority_verification", "isolation_integrity"] }

/-- The scenario current config of C2: only scope_compliance kept. -/
def veto_scenario_current : GovernanceConfig :=
  { sample_config with veto_dimensions := ["scope_compliance"] }

/-- Claim C2: one veto_removal finding per dimension present in the
baseline veto set but absent from the current one, always critical; in
the concrete scenario (vetoes shrink from three to one, nothing else
changed) exactly 2 critical veto_removal findings and a drift report
with critical_count 2. -/
theorem C2_veto_removal (baseline current : GovernanceConfig) :
    ((check_veto_changes baseline current).filter
        (fun f => f.category = "veto_removal")).length
      = (diffB baseline.veto_dimensions.dedup current.veto_dimensions.dedup).length ∧
    (∀ f ∈ check_veto_changes baseline current,
      f.category = "veto_removal" → f.severity = "critical") ∧
    ((drift_against veto_scenario_baseline veto_scenario_current).findings.filter
        (fun f => f.category = "veto_removal")).length = 2 ∧
    (∀ f ∈ (drift_against veto_scenario_baseline veto_scenario_current).findings,
      f.severity = "critical") ∧
    (drift_against veto_scenario_baseline veto_scenario_current).critical_count = 2 := by
  refine ⟨?_, ?_, by decide, by decide, by decide⟩
  · unfold check_veto_changes
    rw [List.filter_append]
    have h1 : List.filter (fun f => decide (f.category = "veto_removal"))
        ((sortStr (diffB baseline.veto_dimensions.dedup current.veto_dimensions.dedup)).map
          (mk_veto_removal_finding baseline.veto_dimensions.dedup current.veto_dimensions.dedup))
        = (sortStr (diffB baseline.veto_dimensions.dedup current.veto_dimensions.dedup)).map
          (mk_veto_removal_finding baseline.veto_dimensions.dedup current.veto_dimensions.dedup) := by
      apply List.filter_eq_self.mpr
      intro f hf
      rcases List.mem_map.mp hf with ⟨dim, _, rfl⟩
      rfl
    have h2 : List.filter (fun f => decide (f.category = "veto_removal"))
        ((sortStr (diffB current.veto_dimensions.dedup baseline.veto_dimensions.dedup)).map
          (mk_veto_addition_finding baseline.veto_dimensions.dedup current.veto_dimensions.dedup))
        = [] := by
      apply List.filter_eq_nil_iff.mpr
      intro f hf
      rcases List.mem_map.mp hf with ⟨dim, _, rfl⟩
      have hcat : (mk_veto_addition_finding baseline.veto_dimensions.dedup
          current.veto_dimensions.dedup dim).category = "veto_addition" := rfl
      simp [hcat]
    rw [h1, h2]
    simp [sortStr_length]
  · intro f hf hcat
    unfold check_veto_changes at hf
    rcases List.mem_append.mp hf with h | h <;> rcases List.mem_map.mp h with ⟨dim, _, rfl⟩
    · rfl
    · have hadd : (mk_veto_addition_finding baseline.veto_dimensions.dedup
          current.veto_dimensions.dedup dim).category = "veto_addition" := rfl
      rw [hadd] at hcat
      exact absurd hcat (by decide)

/-- The first scenario veto-change finding, used by the C2 witness. -/
def c2_first_finding : DriftFinding :=
  (check_veto_changes veto_scenario_baseline veto_scenario_current).headD
    { category := "", severity := "", path := "", baseline_value := "",
      current_value := "", description := "", risk_assessment := "" }

/-- Witness for C2: the first veto-change finding of the concrete
scenario is a veto_removal, and the theorem makes it critical. -/
theorem C2_veto_removal_witness :
    c2_first_finding ∈ check_veto_changes veto_scenario_baseline veto_scenario_current ∧
    c2_first_finding.category = "veto_removal" ∧
    c2_first_finding.severity = "critical" :=
  ⟨by decide, by decide,
    (C2_veto_removal veto_scenario_baseline veto_scenario_current).2.1 _ (by decide) (by decide)⟩

/-! ## Claim C5 -/

theorem find_agent_self {agents : List AgentConfig}
    (hnd : (agents.map (fun a => a.agent_id)).Nodup)
    {a : AgentConfig} (ha : a ∈ agents) :
    find_agent agents a.agent_id = some a := by
  induction agents with
  | nil => cases ha
  | cons x xs ih =>
      rcases List.mem_cons.mp ha with rfl | ha
      · exact List.find?_cons_of_pos _ (by simp)
      · have hne : ¬(x.agent_id = a.agent_id) := by
          intro hx
          have hmem : a.agent_id ∈ xs.map (fun a => a.agent_id) :=
            List.mem_map_of_mem (fun a => a.agent_id) ha
          rw [← hx] at hmem
          exact (List.nodup_cons.mp hnd).1 hmem
        rw [find_agent, List.find?_cons_of_neg _ (by simpa using hne)]
        exact ih (List.nodup_cons.mp hnd).2 ha

theorem find_pair_self {m : List (String × ℚ)}
    (hnd : (m.map Prod.fst).Nodup)
    {p : String × ℚ} (hp : p ∈ m) :
    m.find? (fun q => q.1 = p.1) = some p := by
  induction m with
  | nil => cases hp
  | cons x xs ih =>
      rcases List.mem_cons.mp hp with rfl | hp
      · exact List.find?_cons_of_pos _ (by simp)
      · have hne : ¬(x.1 = p.1) := by
          intro hx
          have hmem : p.1 ∈ xs.map Prod.fst := List.mem_map_of_mem Prod.fst hp
          rw [← hx] at hmem
          exact (List.nodup_cons.mp hnd).1 hmem
        rw [List.find?_cons_of_neg _ (by simpa using hne)]
        exact ih (List.nodup_cons.mp hnd).2 hp

theorem lookupD_self {m : List (String × ℚ)}
    (hnd : (m.map Prod.fst).Nodup)
    {p : String × ℚ} (hp : p ∈ m) (d : ℚ) :
    lookupD m p.1 d = p.2 := by
  rw [lookupD, find_pair_self hnd hp]

theorem check_scope_changes_self {baseline current : GovernanceConfig}
    (hag : baseline.agents = current.agents)
    (hnd : (current.agents.map (fun a => a.agent_id)).Nodup) :
    check_scope_changes baseline current = [] := by
  unfold check_scope_changes
  apply List.flatMap_eq_nil_iff.mpr
  intro agent hagent
  rw [hag, find_agent_self hnd hagent]
  have h1 : diffB agent.scope agent.scope = [] := diffB_self _
  have h2 : diffB agent.targets.dedup agent.targets = [] :=
    diffB_eq_nil_of_subset (fun x hx => List.mem_dedup.mp hx)
  have h3 : diffB agent.boundaries.dedup agent.boundaries = [] :=
    diffB_eq_nil_of_subset (fun x hx => List.mem_dedup.mp hx)
  simp [h1, h2, h3]

theorem check_threshold_changes_self {baseline current : GovernanceConfig}
    (ha : baseline.allow_threshold = current.allow_threshold)
    (hd : baseline.deny_threshold = current.deny_threshold) :
    check_threshold_changes baseline current = [] := by
  unfold check_threshold_changes
  rw [ha, hd]
  simp

theorem check_veto_changes_self {baseline current : GovernanceConfig}
    (hv : baseline.veto_dimensions = current.veto_dimensions) :
    check_veto_changes baseline current = [] := by
  unfold check_veto_changes
  rw [hv]
  simp [diffB_self, sortStr]

theorem check_weight_changes_self {baseline current : GovernanceConfig}
    (hw : baseline.dimension_weights = current.dimension_weights)
    (hnd : (baseline.dimension_weights.map Prod.fst).Nodup) :
    check_weight_changes baseline current = [] := by
  unfold check_weight_changes
  apply List.filterMap_eq_nil_iff.mpr
  intro p hp
  have : lookupD current.dimension_weights p.1 0 = p.2 := by
    rw [← hw]
    exact lookupD_self hnd hp 0
  simp [this]

theorem check_agent_additions_removals_self {baseline current : GovernanceConfig}
    (hag : baseline.agents = current.agents) :
    check_agent_additions_removals baseline current = [] := by
  unfold check_agent_additions_removals
  rw [hag]
  simp [diffB_self, sortStr]

theorem check_trust_changes_self {baseline current : GovernanceConfig}
    (ht : baseline.trust_settings = current.trust_settings) :
    check_trust_changes baseline current = [] := by
  unfold check_trust_changes
  rw [ht]
  simp

/-- Claim C5: structurally identical policies (equal agents, weights,
vetoes, thresholds and trust settings; ids and weight keys unique as
the loader guarantees) produce no drift findings and
drift_detected = false; every per-field check returns zero findings on
equal inputs. -/
theorem C5_identical_no_drift (baseline current : GovernanceConfig)
    (hag : baseline.agents = current.agents)
    (hw : baseline.dimension_weights = current.dimension_weights)
    (hv : baseline.veto_dimensions = current.veto_dimensions)
    (ha : baseline.allow_threshold = current.allow_threshold)
    (hd : baseline.deny_threshold = current.deny_threshold)
    (ht : baseline.trust_settings = current.trust_settings)
    (hnd : (current.agents.map (fun a => a.agent_id)).Nodup)
    (hndw : (baseline.dimension_weights.map Prod.fst).Nodup) :
    check_scope_changes baseline current = [] ∧
    check_threshold_changes baseline current = [] ∧
    check_veto_changes baseline current = [] ∧
    check_weight_changes baseline current = [] ∧
    check_agent_additions_removals baseline current = [] ∧
    check_trust_changes baseline current = [] ∧
    drift_findings baseline current = [] ∧
    (drift_against baseline current).drift_detected = false ∧
    (drift_against baseline current).findings = [] := by
  have h1 := check_scope_changes_self hag hnd
  have h2 := check_threshold_changes_self ha hd
  have h3 := check_veto_changes_self hv
  have h4 := check_weight_changes_self hw hndw
  have h5 := check_agent_additions_removals_self hag
  have h6 := check_trust_changes_self ht
  have hall : drift_findings baseline current = [] := by
    unfold drift_findings
    rw [h1, h2, h3, h4, h5, h6]
    rfl
  exact ⟨h1, h2, h3, h4, h5, h6, hall, by simp [drift_against, build_drift_report, hall],
    by simp [drift_against, build_drift_report, hall]⟩

/-- Witness for C5: the sample policy diffed against itself. -/
theorem C5_identical_no_drift_witness :
    (drift_against sample_config sample_config).drift_detected = false ∧
    (drift_against sample_config sample_config).findings = [] :=
  ⟨((C5_identical_no_drift sample_config sample_config rfl rfl rfl rfl rfl rfl
      (by decide) (by decide)).2.2.2.2.2.2.2).1,
   ((C5_identical_no_drift sample_config sample_config rfl rfl rfl rfl rfl rfl
      (by decide) (by decide)).2.2.2.2.2.2.2).2⟩

/-! ## Claim C9 -/

theorem string_append_left_cancel {s t u : String} (h : s ++ t = s ++ u) : t = u := by
  have hd : (s ++ t).data = (s ++ u).data := congrArg String.data h
  rw [String.data_append, String.data_append] at hd
  have hdata := List.append_cancel_left hd
  cases t
  cases u
  exact congrArg String.mk hdata

/-- Claim C9: `_check_weight_changes` iterates only the baseline
weights.  A dimension with positive baseline weight and no entry in the
current weights is read as 0.0 and produces its weight_reduction
finding (with current value 0); a dimension absent from the baseline is
never examined, so no finding carries its path. -/
theorem C9_weight_baseline_iteration (baseline current : GovernanceConfig) :
    (∀ p ∈ baseline.dimension_weights,
      current.dimension_weights.find? (fun q => q.1 = p.1) = none →
      0 < p.2 →
      mk_weight_reduction_finding p.1 p.2 0 ∈ check_weight_changes baseline current) ∧
    (∀ dim : String, dim ∉ baseline.dimension_weights.map Prod.fst →
      ∀ f ∈ check_weight_changes baseline current,
        f.path ≠ "dimensions.weights." ++ dim) := by
  constructor
  · intro p hp hfind hpos
    apply List.mem_filterMap.mpr
    refine ⟨p, hp, ?_⟩
    have hcw : lookupD current.dimension_weights p.1 0 = 0 := by
      rw [lookupD, hfind]
    simp only [hcw]
    rw [if_pos hpos]
  · intro dim hdim f hf heq
    rcases List.mem_filterMap.mp hf with ⟨q, hq, hsome⟩
    by_cases hlt : lookupD current.dimension_weights q.1 0 < q.2
    · simp only [hlt, if_pos] at hsome
      cases hsome
      have hpath : ("dimensions.weights." ++ q.1 : String) = "dimensions.weights." ++ dim := heq
      have : q.1 = dim := string_append_left_cancel hpath
      exact hdim (this ▸ List.mem_map_of_mem Prod.fst hq)
    · simp only [hlt, if_neg] at hsome
      cases hsome

/-- A current config for the C9 witness: the transparency weight entry
of the sample policy is dropped entirely. -/
def c9_current : GovernanceConfig :=
  { sample_config with dimension_weights := [("scope_compliance", 2)] }

/-- Witness for C9: dropping the transparency entry produces the
weight_reduction finding that reads the current weight as 0. -/
theorem C9_weight_baseline_iteration_witness :
    ("transparency", (1 : ℚ)) ∈ sample_config.dimension_weights ∧
    c9_current.dimension_weights.find? (fun q => q.1 = "transparency") = none ∧
    (0 : ℚ) < 1 ∧
    mk_weight_reduction_finding "transparency" 1 0
      ∈ check_weight_changes sample_config c9_current :=
  ⟨by decide, by decide, by decide,
    (C9_weight_baseline_iteration sample_config c9_current).1 ("transparency", 1)
      (by decide) (by decide) (by decide)⟩

/-! ## Claim C10 -/

/-- Claim C10: every baseline-retrieval failure mode - timeout, missing
git executable, non-zero exit code, and an unparsable baseline document
- makes `check_drift` return the non-error no-baseline report:
drift_detected false and zero findings. -/
theorem C10_baseline_failure_modes
    (parse : String → Except (List String) GovernanceConfig)
    (current : GovernanceConfig) :
    check_drift SubprocessOutcome.timedOut parse current = no_baseline_report ∧
    check_drift SubprocessOutcome.execNotFound parse current = no_baseline_report ∧
    (∀ rc : Int, rc ≠ 0 → ∀ out : String,
      check_drift (SubprocessOutcome.completed rc out) parse current = no_baseline_report) ∧
    (∀ out : String, ∀ errs : List String, parse out = Except.error errs →
      check_drift (SubprocessOutcome.completed 0 out) parse current = no_baseline_report) ∧
    no_baseline_report.drift_detected = false ∧
    no_baseline_report.findings = [] := by
  refine ⟨rfl, rfl, ?_, ?_, rfl, rfl⟩
  · intro rc hrc out
    simp [check_drift, load_baseline, hrc]
  · intro out errs herr
    simp [check_drift, load_baseline, herr, Except.toOption]

/-- Witness for C10: a failing exit code and an unparsable baseline at
concrete inputs. -/
theorem C10_baseline_failure_modes_witness :
    ((1 : Int) ≠ 0 ∧
      check_drift (SubprocessOutcome.completed 1 "garbage")
        (fun _ => Except.error ["not yaml"]) sample_config = no_baseline_report) ∧
    ((fun _ => Except.error ["not yaml"] :
        String → Except (List String) GovernanceConfig) "garbage" = Except.error ["not yaml"] ∧
      check_drift (SubprocessOutcome.completed 0 "garbage")
        (fun _ => Except.error ["not yaml"]) sample_config = no_baseline_report) :=
  ⟨⟨by decide,
    (C10_baseline_failure_modes (fun _ => Except.error ["not yaml"]) sample_config).2.2.1 1
      (by decide) "garbage"⟩,
   ⟨rfl,
    (C10_baseline_failure_modes (fun _ => Except.error ["not yaml"]) sample_config).2.2.2.1
      "garbage" ["not yaml"] rfl⟩⟩

/-! ## Claims C3 and C6 -/

/-- Counting findings by capability: mapping a capability-preserving
finding maker over a filtered slice of a table with pairwise-distinct
capability names yields exactly one finding with a given capability
when its table row passes the filter, none otherwise. -/
theorem count_cap_filter_map {l : List DangerousCombo} {p : DangerousCombo → Bool}
    {mk : DangerousCombo → CompoundAuthorityFinding}
    (hmk : ∀ d, (mk d).resulting_capability = d.capability)
    (hnd : (l.map (fun d => d.capability)).Nodup)
    {d : DangerousCombo} (hd : d ∈ l) :
    (((l.filter p).map mk).filter
        (fun f => f.resulting_capability = d.capability)).length
      = if p d then 1 else 0 := by
  induction l with
  | nil => cases hd
  | cons x xs ih =>
      have hnd2 := (List.nodup_cons.mp hnd).2
      rcases List.mem_cons.mp hd with rfl | hd
      · have hxs : ((xs.filter p).map mk).filter
            (fun f => f.resulting_capability = d.capability) = [] := by
          apply List.filter_eq_nil_iff.mpr
          intro f hf
          rcases List.mem_map.mp hf with ⟨e, he, rfl⟩
          have hmem : e.capability ∈ xs.map (fun d => d.capability) :=
            List.mem_map_of_mem _ (List.mem_of_mem_filter he)
          have hne : ¬(e.capability = d.capability) := by
            intro hcap
            rw [hcap] at hmem
            exact (List.nodup_cons.mp hnd).1 hmem
          simp [hmk e, hne]
        by_cases hp : p d
        · simp [List.filter_cons, hp, hmk d, hxs]
        · simp [List.filter_cons, hp, hxs]
      · have hne : ¬(x.capability = d.capability) := by
          intro hcap
          have hmem : d.capability ∈ xs.map (fun d => d.capability) :=
            List.mem_map_of_mem _ hd
          rw [← hcap] at hmem
          exact (List.nodup_cons.mp hnd).1 hmem
        by_cases hp : p x
        · simp [List.filter_cons, hp, hmk x, hne, ih hnd2 hd]
        · simp [List.filter_cons, hp, ih hnd2 hd]

/-- Claim C3: a pair sharing no target yields zero cross-agent
findings; otherwise a finding for dangerous combination D is emitted
exactly when D is covered by the combined scopes but by neither scope
alone, and severity is critical exactly for the three named
capabilities, warning otherwise. -/
theorem C3_cross_agent (a b : AgentConfig) :
    (interB a.targets.dedup b.targets = [] → cross_pair_findings a b = []) ∧
    (∀ d ∈ DANGEROUS_COMBINATIONS,
      ((cross_pair_findings a b).filter
          (fun f => f.resulting_capability = d.capability)).length
        = if !(shared_targets_of a b).isEmpty && cross_condition a b d then 1 else 0) ∧
    (∀ f ∈ cross_pair_findings a b,
      f.severity =
        if CRITICAL_CAPABILITIES.contains f.resulting_capability then "critical"
        else "warning") := by
  refine ⟨?_, ?_, ?_⟩
  · intro hshared
    unfold cross_pair_findings
    rw [if_pos]
    rw [shared_targets_of, hshared]
    rfl
  · intro d hd
    unfold cross_pair_findings
    by_cases hshared : (shared_targets_of a b).isEmpty
    · rw [if_pos hshared]
      simp [hshared]
    · rw [if_neg hshared]
      rw [count_cap_filter_map (fun e => rfl) (by decide) hd]
      simp [hshared]
  · intro f hf
    unfold cross_pair_findings at hf
    split at hf
    · cases hf
    · rcases List.mem_map.mp hf with ⟨d, _, rfl⟩
      rfl

/-- The first dangerous combination (read+write, effective_update),
used by witnesses. -/
def c3_combo : DangerousCombo :=
  DANGEROUS_COMBINATIONS.headD { required := [], capability := "", description := "" }

/-- Two agents that only together cover read+write on a shared target. -/
def c3_agent_a : AgentConfig :=
  { agent_id := "reader", scope := ["read"], targets := ["db"], boundaries := [],
    initial_trust := mkRat 1 2, min_trust := mkRat 3 10, owner := "", reason := "" }

/-- See `c3_agent_a`. -/
def c3_agent_b : AgentConfig :=
  { agent_id := "writer", scope := ["write"], targets := ["db"], boundaries := [],
    initial_trust := mkRat 1 2, min_trust := mkRat 3 10, owner := "", reason := "" }

/-- Witness for C3: the reader/writer pair on a shared target gets
exactly one effective_update finding, by the counting part of the
theorem at the concrete table row. -/
theorem C3_cross_agent_witness :
    c3_combo ∈ DANGEROUS_COMBINATIONS ∧
    ((cross_pair_findings c3_agent_a c3_agent_b).filter
        (fun f => f.resulting_capability = c3_combo.capability)).length
      = (if !(shared_targets_of c3_agent_a c3_agent_b).isEmpty
            && cross_condition c3_agent_a c3_agent_b c3_combo then 1 else 0) ∧
    (!(shared_targets_of c3_agent_a c3_agent_b).isEmpty
        && cross_condition c3_agent_a c3_agent_b c3_combo) = true :=
  ⟨by decide,
   (C3_cross_agent c3_agent_a c3_agent_b).2.1 c3_combo (by decide),
   by decide⟩

/-- The agent of the C6 scenario: scope exactly read, write, delete on
one target. -/
def rwd_agent : AgentConfig :=
  { agent_id := "agent-rwd", scope := ["read", "write", "delete"], targets := ["t1"],
    boundaries := [], initial_trust := mkRat 1 2, min_trust := mkRat 3 10,
    owner := "", reason := "" }

/-- Claim C6: one single-agent finding per dangerous combination whose
required actions sit inside the agent scope, warning for the three
named capabilities and info otherwise; an agent with scope exactly
read/write/delete gets effective_update, data_replacement and
targeted_deletion. -/
theorem C6_single_agent (agent : AgentConfig) :
    (∀ d ∈ DANGEROUS_COMBINATIONS,
      ((single_agent_findings agent).filter
          (fun f => f.resulting_capability = d.capability)).length
        = if subsetB d.required agent.scope then 1 else 0) ∧
    (∀ f ∈ single_agent_findings agent,
      f.severity =
        if CRITICAL_CAPABILITIES.contains f.resulting_capability then "warning"
        else "info") ∧
    ((single_agent_findings rwd_agent).map (fun f => f.resulting_capability)
      = ["effective_update", "data_replacement", "targeted_deletion"]) := by
  refine ⟨?_, ?_, by decide⟩
  · intro d hd
    unfold single_agent_findings
    rw [count_cap_filter_map (fun e => rfl) (by decide) hd]
  · intro f hf
    unfold single_agent_findings at hf
    rcases List.mem_map.mp hf with ⟨d, _, rfl⟩
    rfl

/-- Witness for C6: the counting part applied to the read+write row for
the read/write/delete agent. -/
theorem C6_single_agent_witness :
    c3_combo ∈ DANGEROUS_COMBINATIONS ∧
    ((single_agent_findings rwd_agent).filter
        (fun f => f.resulting_capability = c3_combo.capability)).length
      = (if subsetB c3_combo.required rwd_agent.scope then 1 else 0) ∧
    subsetB c3_combo.required rwd_agent.scope = true :=
  ⟨by decide,
   (C6_single_agent rwd_agent).1 c3_combo (by decide),
   by decide⟩

/-! ## Claim C8 -/

/-- Claim C8: under a governor that emits no flag named
authority_escalation (the escalation heuristic is the only source of
that capability name), an agent whose simulated UCS sequence has length
at least 3, is monotonically non-decreasing, and ends more than 0.1
above its first value gets exactly one authority_escalation finding,
of severity info; if any of the three conditions fails, none is
emitted. -/
theorem C8_authority_escalation
    (evalFn : String → String → String → ℚ → VerdictResult)
    (assess : AgentConfig → List CompletedStep → List GovernorFlag)
    (now : String) (agent : AgentConfig)
    (hgov : ∀ flag ∈ assess agent (build_steps evalFn now agent),
      flag.resulting_capability ≠ "authority_escalation") :
    (3 ≤ (ucs_values_of evalFn now agent).length ∧
        nondecreasing (ucs_values_of evalFn now agent) = true ∧
        (ucs_values_of evalFn now agent).headD 0 + mkRat 1 10
          < (ucs_values_of evalFn now agent).getLastD 0 →
      (workflow_agent_findings evalFn assess now agent).filter
          (fun f => f.resulting_capability = "authority_escalation")
        = [mk_escalation_finding agent] ∧
      (mk_escalation_finding agent).severity = "info") ∧
    (¬(3 ≤ (ucs_values_of evalFn now agent).length ∧
        nondecreasing (ucs_values_of evalFn now agent) = true ∧
        (ucs_values_of evalFn now agent).headD 0 + mkRat 1 10
          < (ucs_values_of evalFn now agent).getLastD 0) →
      (workflow_agent_findings evalFn assess now agent).filter
          (fun f => f.resulting_capability = "authority_escalation") = []) := by
  have hflags : ((assess agent (build_steps evalFn now agent)).map
      (mk_flag_finding agent)).filter
      (fun f => f.resulting_capability = "authority_escalation") = [] := by
    apply List.filter_eq_nil_iff.mpr
    intro f hf
    rcases List.mem_map.mp hf with ⟨flag, hflag, rfl⟩
    have hcap : (mk_flag_finding agent flag).resulting_capability
        = flag.resulting_capability := rfl
    simp [hcap, hgov flag hflag]
  have hlen : (ucs_values_of evalFn now agent).length = agent.scope.dedup.length := by
    simp [ucs_values_of, build_steps, actions_list_of, sortStr_length]
  constructor
  · rintro ⟨h3, hmono, hgap⟩
    unfold workflow_agent_findings
    rw [if_neg (by omega)]
    rw [List.filter_append, hflags]
    unfold escalation_findings
    rw [if_pos h3, if_pos ⟨hmono, hgap⟩]
    exact ⟨by simp [mk_escalation_finding], rfl⟩
  · intro hneg
    unfold workflow_agent_findings
    by_cases hlt : agent.scope.dedup.length < 2
    · rw [if_pos hlt]
      rfl
    · rw [if_neg hlt, List.filter_append, hflags]
      unfold escalation_findings
      by_cases h3 : 3 ≤ (ucs_values_of evalFn now agent).length
      · rw [if_pos h3]
        by_cases hcond : nondecreasing (ucs_values_of evalFn now agent) ∧
            (ucs_values_of evalFn now agent).headD 0 + mkRat 1 10
              < (ucs_values_of evalFn now agent).getLastD 0
        · exact absurd ⟨h3, hcond.1, hcond.2⟩ hneg
        · rw [if_neg hcond]
          rfl
      · rw [if_neg h3]
        rfl

/-- The workflow-scenario agent for the C8 witness: three distinct
actions on one target. -/
def c8_agent : AgentConfig :=
  { agent_id := "wf-agent", scope := ["a", "b", "c"], targets := ["t"], boundaries := [],
    initial_trust := mkRat 1 2, min_trust := mkRat 3 10, owner := "", reason := "" }

/-- A deterministic stub evaluator whose UCS climbs 0, 1/2, 1 across
the three actions. -/
def c8_eval : String → String → String → ℚ → VerdictResult :=
  fun _ action _ _ =>
    if action = "b" then { verdict := Verdict.ALLOW, ucs := mkRat 1 2 }
    else if action = "c" then { verdict := Verdict.ALLOW, ucs := 1 }
    else { verdict := Verdict.ALLOW, ucs := 0 }

/-- Witness for C8: the climbing stub trips all three escalation
conditions and the theorem yields the single info finding. -/
theorem C8_authority_escalation_witness :
    (3 ≤ (ucs_values_of c8_eval "T" c8_agent).length ∧
      nondecreasing (ucs_values_of c8_eval "T" c8_agent) = true ∧
      (ucs_values_of c8_eval "T" c8_agent).headD 0 + mkRat 1 10
        < (ucs_values_of c8_eval "T" c8_agent).getLastD 0) ∧
    (workflow_agent_findings c8_eval (fun _ _ => []) "T" c8_agent).filter
        (fun f => f.resulting_capability = "authority_escalation")
      = [mk_escalation_finding c8_agent] ∧
    (mk_escalation_finding c8_agent).severity = "info" := by
  have hucs : ucs_values_of c8_eval "T" c8_agent = [0, mkRat 1 2, 1] := rfl
  have h3 : 3 ≤ (ucs_values_of c8_eval "T" c8_agent).length := by
    rw [hucs]
    decide
  have hmono : nondecreasing (ucs_values_of c8_eval "T" c8_agent) = true := by
    rw [hucs]
    decide
  have hgap : (ucs_values_of c8_eval "T" c8_agent).headD 0 + mkRat 1 10
      < (ucs_values_of c8_eval "T" c8_agent).getLastD 0 := by
    rw [hucs]
    norm_num [Rat.mkRat_eq_div, List.headD, List.getLastD]
  have hmain := (C8_authority_escalation c8_eval (fun _ _ => []) "T" c8_agent
    (by intro flag hflag; cases hflag)).1 ⟨h3, hmono, hgap⟩
  exact ⟨⟨h3, hmono, hgap⟩, hmain.1, hmain.2⟩

end NomoticCI
